import Mathlib

/-!
Verification development for the ncaabb-model prediction and bet-scoring
engine (`model.py`, `best_bets.py`).

The Python code computes over IEEE floats; the embedding computes over `ℚ`
with exact arithmetic.  `round(x, k)` is modeled by `roundTo` with half-up
ties; none of the verified properties rests on the direction of an exact
decimal tie.  The single genuinely real-valued operation, the square root
inside `np.std`, is kept as an explicit parameter `sqrtQ : ℚ → ℚ`: every
theorem below holds for an arbitrary realization of it, because no verified
property depends on the value of the margin standard deviation.
-/

namespace NCAABB

/-! ### Numeric and string helpers -/

/-- Python `round(x, k)` modeled over `ℚ` (ties rounded half-up; exact decimal
ties are not exercised by the theorems below). -/
def roundTo (k : ℕ) (q : ℚ) : ℚ := ((⌊q * (10 : ℚ) ^ k + 1 / 2⌋ : ℤ) : ℚ) / (10 : ℚ) ^ k

/-- Decimal digits of a fraction `r / d`, at most `fuel` digits. -/
def fracDigits : ℕ → ℕ → ℕ → String
  | 0, _, _ => ""
  | _, 0, _ => ""
  | fuel + 1, r, d =>
    let r10 := r * 10
    String.singleton (Char.ofNat (48 + r10 / d)) ++ fracDigits fuel (r10 % d) d

/-- Python `str()` of a numeric value, as used by f-string interpolation of
market lines (`f"Over {total_line}"`).  Integral values print without a
decimal point (the source's default line `140` is an `int`). -/
def pyStr (q : ℚ) : String :=
  if q.den = 1 then toString q.num
  else
    (if q.num < 0 then "-" else "") ++ toString (q.num.natAbs / q.den) ++ "." ++
      fracDigits 17 (q.num.natAbs % q.den) q.den

/-- Python `f"{x:.1f}"` fixed-point formatting (one decimal, ties half-up). -/
def fmtFixed1 (q : ℚ) : String :=
  let k : ℤ := ⌊q * 10 + 1 / 2⌋
  (if k < 0 then "-" else "") ++ toString (k.natAbs / 10) ++ "." ++ toString (k.natAbs % 10)

/-- Python `f"{x:+.1f}"` (always-signed one-decimal formatting). -/
def fmtPlus1 (q : ℚ) : String :=
  let k : ℤ := ⌊q * 10 + 1 / 2⌋
  (if k < 0 then "-" else "+") ++ toString (k.natAbs / 10) ++ "." ++ toString (k.natAbs % 10)

/-! ### Data model

Dict-shaped inputs from the stats/odds providers are embedded as records of
optional fields; `.get(key, default)` becomes `Option.getD`. -/

/-- `best_bets.py` bet dictionary.  The `score` key is absent (`none`) until
`select_best_bets` assigns it. -/
structure Bet where
  game_id : String
  game_description : String
  bet_type : String
  pick : String
  odds : ℤ
  predicted_prob : ℚ
  confidence : ℚ
  reasoning : String
  score : Option ℚ
deriving DecidableEq

/-- Market spread record from the odds provider. -/
structure SpreadData where
  home_spread : Option ℚ
  away_spread : Option ℚ
  home_odds : Option ℤ
  away_odds : Option ℤ
deriving DecidableEq

/-- Market total record from the odds provider. -/
structure TotalData where
  line : Option ℚ
  over_odds : Option ℤ
  under_odds : Option ℤ
deriving DecidableEq

/-- Odds dictionary: `{spread: {...}, total: {...}}`. -/
structure OddsData where
  spread : Option SpreadData
  total : Option TotalData
deriving DecidableEq

/-- `game_info` context dictionary consumed by `model.py` (conference names,
odds, ISO start date). -/
structure GameInfo where
  home_conference : Option String
  away_conference : Option String
  odds : Option OddsData
  start_date : Option String
deriving DecidableEq

/-- `game` dictionary consumed by `create_bet_from_prediction`. -/
structure GameDict where
  id : Option String
  home_team : Option String
  away_team : Option String
deriving DecidableEq

/-- Team season statistics dictionary (`team_stats`); only the keys read by
the prediction pipeline are carried. -/
structure TeamStats where
  points_per_game : Option ℚ
  opponent_points_per_game : Option ℚ
  offensive_rating : Option ℚ
  defensive_rating : Option ℚ
  pace : Option ℚ
  games : Option ℚ
  wins : Option ℚ
  losses : Option ℚ
deriving DecidableEq

/-- One recent game dictionary. -/
structure RecentGame where
  home_score : Option ℚ
  away_score : Option ℚ
  home_team_id : Option ℤ
deriving DecidableEq

/-- Output of `analyze_recent_form`. -/
structure FormMetrics where
  win_rate : ℚ
  avg_margin : ℚ
  scoring_trend : ℚ
  consistency : ℚ
deriving DecidableEq

/-- Derived metrics of `calculate_team_metrics` that the prediction pipeline
reads (`offensive_rating`, `defensive_rating`, `net_rating`, `pace`); the
function's other derived entries (shooting efficiency, four factors, legacy
metrics) are consumed by no verified operation and are omitted. -/
structure TeamMetrics where
  offensive_rating : ℚ
  defensive_rating : ℚ
  net_rating : ℚ
  pace : ℚ
deriving DecidableEq

/-! ### best_bets.py -/

/-- `american_odds_to_probability` (best_bets.py:9). -/
def american_odds_to_probability (odds : ℤ) : ℚ :=
  if odds < 0 then |(odds : ℚ)| / (|(odds : ℚ)| + 100)
  else 100 / ((odds : ℚ) + 100)

/-- The score of `calculate_bet_score` before the final `round(score, 4)`
(best_bets.py:55-82). -/
def calculate_bet_score_raw (predicted_prob : ℚ) (odds : ℤ) (confidence : ℚ) : ℚ :=
  let base_score := predicted_prob * 0.6
  let confidence_score := confidence * 0.4
  let implied_prob := american_odds_to_probability odds
  let odds_factor := 1 - (implied_prob - 0.5) * 0.2
  (base_score + confidence_score) * odds_factor

/-- `calculate_bet_score` (best_bets.py:55-84). -/
def calculate_bet_score (predicted_prob : ℚ) (odds : ℤ) (confidence : ℚ) : ℚ :=
  roundTo 4 (calculate_bet_score_raw predicted_prob odds confidence)

/-- `meets_odds_criteria` (best_bets.py:86-102); `max_odds` is the selector's
configured ceiling (default `-125`). -/
def meets_odds_criteria (max_odds odds : ℤ) : Bool :=
  if 0 ≤ odds then true else decide (max_odds ≤ odds)

/-- The in-place `bet['score'] = calculate_bet_score(...)` assignment
(best_bets.py:126-131) on one bet dictionary. -/
def apply_score (b : Bet) : Bet :=
  { b with score := some (calculate_bet_score b.predicted_prob b.odds b.confidence) }

/-- Sort key used by `sorted(eligible_bets, key=lambda x: x['score'], ...)`;
every sorted bet has just been assigned a score, so `getD` never falls back. -/
def score_key (h : ℕ → Bet) (a : ℕ) : ℚ := ((h a).score).getD 0

/-- Descending-score order on bet addresses (`reverse=True`). -/
def bet_ge (h : ℕ → Bet) (a b : ℕ) : Prop := score_key h b ≤ score_key h a

instance (h : ℕ → Bet) : DecidableRel (bet_ge h) :=
  fun a b => inferInstanceAs (Decidable (score_key h b ≤ score_key h a))

instance (h : ℕ → Bet) : IsTotal ℕ (bet_ge h) := ⟨fun a b => le_total (score_key h b) (score_key h a)⟩

instance (h : ℕ → Bet) : IsTrans ℕ (bet_ge h) := ⟨fun _ _ _ hab hbc => le_trans hbc hab⟩

/-- `select_best_bets` (best_bets.py:104-137).  The Python list holds
references to mutable dictionaries, so the embedding passes an explicit
heap `h : ℕ → Bet` and a list of addresses, returning the mutated heap
(the frame effect of the in-place score assignment) together with the
returned top-5 address list.  `sorted(..., reverse=True)` is Python's
stable descending sort, embedded as stable insertion sort on the
descending-score order. -/
def select_best_bets (max_odds : ℤ) (h : ℕ → Bet) (all_bets : List ℕ) :
    (ℕ → Bet) × List ℕ :=
  let eligible := all_bets.filter (fun a => meets_odds_criteria max_odds (h a).odds)
  let h' := eligible.foldl (fun hh a => Function.update hh a (apply_score (hh a))) h
  let sorted_bets := List.insertionSort (bet_ge h') eligible
  (h', sorted_bets.take 5)

/-- `_adjust_confidence_for_edge` (best_bets.py:262-321). -/
def _adjust_confidence_for_edge (base_confidence edge : ℚ) (bet_type : String) : ℚ :=
  let abs_edge := |edge|
  let adjustment : ℚ :=
    if bet_type = "spread" then
      if abs_edge < 2 then 0.95
      else if abs_edge < 5 then 1.0
      else if abs_edge < 10 then 1.05
      else if abs_edge < 15 then 1.0
      else if abs_edge < 20 then 0.92
      else 0.85
    else
      if abs_edge < 3 then 0.92
      else if abs_edge < 7 then 1.0
      else if abs_edge < 12 then 1.03
      else if abs_edge < 18 then 0.94
      else 0.87
  roundTo 3 (max 0.25 (min 0.88 (base_confidence * adjustment)))

/-- `_spread_to_probability` (best_bets.py:323-361): edge → value rating. -/
def _spread_to_probability (edge : ℚ) : ℚ :=
  if |edge| < 0.5 then 0.50
  else
    let prob : ℚ :=
      if |edge| ≤ 5 then 0.50 + edge * 0.015
      else if |edge| ≤ 10 then
        let base : ℚ := 0.50 + 5 * 0.015
        let additional := (|edge| - 5) * 0.012
        base + (if edge > 0 then additional else -additional)
      else if |edge| ≤ 20 then
        let base : ℚ := 0.50 + 5 * 0.015 + 5 * 0.012
        let additional := (|edge| - 10) * 0.006
        base + (if edge > 0 then additional else -additional)
      else
        let base : ℚ := 0.50 + 5 * 0.015 + 5 * 0.012 + 10 * 0.006
        let additional := min ((|edge| - 20) * 0.001) 0.005
        base + (if edge > 0 then additional else -additional)
    max 0.50 (min 0.70 prob)

/-- `_total_to_probability` (best_bets.py:363-402). -/
def _total_to_probability (edge : ℚ) : ℚ :=
  let abs_edge := |edge|
  if abs_edge < 0.5 then 0.50
  else
    let prob : ℚ :=
      if abs_edge ≤ 6 then 0.50 + edge * 0.012
      else if abs_edge ≤ 12 then
        let base : ℚ := 0.50 + 6 * 0.012
        let additional := (abs_edge - 6) * 0.008
        base + (if edge > 0 then additional else -additional)
      else if abs_edge ≤ 20 then
        let base : ℚ := 0.50 + 6 * 0.012 + 6 * 0.008
        let additional := (abs_edge - 12) * 0.003
        base + (if edge > 0 then additional else -additional)
      else
        let base : ℚ := 0.50 + 6 * 0.012 + 6 * 0.008 + 8 * 0.003
        let additional := min ((abs_edge - 20) * 0.0005) 0.006
        base + (if edge > 0 then additional else -additional)
    max 0.50 (min 0.65 prob)

/-- `create_bet_from_prediction` (best_bets.py:139-260). -/
def create_bet_from_prediction (game : GameDict) (prediction_type : String)
    (prediction confidence : ℚ) (odds_data : OddsData) : List Bet :=
  let home_team := game.home_team.getD "Home"
  let away_team := game.away_team.getD "Away"
  let game_desc := away_team ++ " @ " ++ home_team
  if prediction_type = "spread" then
    let market_spread := odds_data.spread.getD { home_spread := none, away_spread := none, home_odds := none, away_odds := none }
    let home_spread := market_spread.home_spread.getD 0
    let away_spread := market_spread.away_spread.getD 0
    let home_odds := market_spread.home_odds.getD (-110)
    let away_odds := market_spread.away_odds.getD (-110)
    let sel : String × ℚ × ℤ × ℚ :=
      if prediction > 0 then
        if prediction > |home_spread| then (home_team, home_spread, home_odds, prediction - home_spread)
        else (away_team, away_spread, away_odds, away_spread - prediction)
      else
        if |prediction| > |away_spread| then (away_team, away_spread, away_odds, |prediction| - |away_spread|)
        else (home_team, home_spread, home_odds, home_spread + |prediction|)
    let pick_team := sel.1
    let pick_spread := sel.2.1
    let pick_odds := sel.2.2.1
    let edge := sel.2.2.2
    let win_prob := _spread_to_probability edge
    let adjusted_confidence := _adjust_confidence_for_edge confidence edge "spread"
    let reasoning :=
      if prediction > 0 then "Model predicts " ++ home_team ++ " by " ++ fmtFixed1 |prediction|
      else if prediction < 0 then "Model predicts " ++ away_team ++ " by " ++ fmtFixed1 |prediction|
      else "Model predicts even game"
    [{ game_id := game.id.getD "", game_description := game_desc, bet_type := "Spread",
       pick := pick_team ++ " " ++ fmtPlus1 pick_spread, odds := pick_odds,
       predicted_prob := win_prob, confidence := adjusted_confidence,
       reasoning := reasoning, score := none }]
  else if prediction_type = "total" then
    let market_total := odds_data.total.getD { line := none, over_odds := none, under_odds := none }
    let total_line := market_total.line.getD 140
    let over_odds := market_total.over_odds.getD (-110)
    let under_odds := market_total.under_odds.getD (-110)
    let sel : String × ℤ × ℚ :=
      if prediction > total_line then ("Over " ++ pyStr total_line, over_odds, prediction - total_line)
      else ("Under " ++ pyStr total_line, under_odds, total_line - prediction)
    let pick := sel.1
    let pick_odds := sel.2.1
    let edge := sel.2.2
    let win_prob := _total_to_probability edge
    let adjusted_confidence := _adjust_confidence_for_edge confidence edge "total"
    let reasoning :=
      if prediction > total_line then
        "Model predicts " ++ fmtFixed1 prediction ++ " (Over " ++ fmtFixed1 total_line ++ " by " ++ fmtFixed1 edge ++ ")"
      else
        "Model predicts " ++ fmtFixed1 prediction ++ " (Under " ++ fmtFixed1 total_line ++ " by " ++ fmtFixed1 edge ++ ")"
    [{ game_id := game.id.getD "", game_description := game_desc, bet_type := "Total",
       pick := pick, odds := pick_odds,
       predicted_prob := win_prob, confidence := adjusted_confidence,
       reasoning := reasoning, score := none }]
  else []

/-! ### model.py -/

/-- `CONFERENCE_TIERS` lookup (model.py:17-61) with the `.get(conf, 7)`
default of `get_adaptive_regression_weight`. -/
def conference_tiers (conf : String) : ℤ :=
  if conf = "Big Ten" ∨ conf = "SEC" ∨ conf = "Big 12" ∨ conf = "ACC" then 1
  else if conf = "Big East" ∨ conf = "Pac-12" then 2
  else if conf = "Mountain West" ∨ conf = "Atlantic 10" ∨ conf = "West Coast" ∨
      conf = "American Athletic" then 3
  else if conf = "Missouri Valley" ∨ conf = "Conference USA" ∨ conf = "Sun Belt" ∨
      conf = "Mid-American" ∨ conf = "MAC" then 4
  else if conf = "Horizon" ∨ conf = "WAC" ∨ conf = "Big West" ∨ conf = "Big Sky" ∨
      conf = "Summit" ∨ conf = "Southern" ∨ conf = "Colonial" ∨ conf = "America East" then 5
  else if conf = "Southland" ∨ conf = "Ohio Valley" ∨ conf = "MAAC" ∨ conf = "Northeast" ∨
      conf = "Patriot" ∨ conf = "Atlantic Sun" ∨ conf = "Big South" ∨ conf = "SWAC" ∨
      conf = "MEAC" then 6
  else 7

/-- The slice of `calculate_team_metrics` (model.py:72-131) read by the
prediction pipeline: ratings default to raw points per game, pace to the
`ppg + opp_ppg` estimate, missing stats to 0. -/
def calculate_team_metrics (team_stats : TeamStats) : TeamMetrics :=
  let ppg := team_stats.points_per_game.getD 0
  let opp_ppg := team_stats.opponent_points_per_game.getD 0
  let offensive_rating := team_stats.offensive_rating.getD ppg
  let defensive_rating := team_stats.defensive_rating.getD opp_ppg
  { offensive_rating := offensive_rating, defensive_rating := defensive_rating,
    net_rating := offensive_rating - defensive_rating,
    pace := team_stats.pace.getD (ppg + opp_ppg) }

/-- `get_adaptive_regression_weight` (model.py:133-242).  `sqrtQ` is unused
here; the Python `game_info` truthiness test is modeled by `Option`
matching. -/
def get_adaptive_regression_weight (home_stats away_stats : TeamStats)
    (home_recent away_recent : List RecentGame) (game_info : Option GameInfo) : ℚ :=
  let home_games := home_stats.games.getD (home_recent.length : ℚ)
  let away_games := away_stats.games.getD (away_recent.length : ℚ)
  let avg_games := (home_games + away_games) / 2
  let base_weight : ℚ :=
    if avg_games ≤ 5 then 0.75 + (avg_games / 5) * 0.10
    else if avg_games ≤ 10 then 0.85 + ((avg_games - 5) / 5) * 0.07
    else if avg_games ≤ 20 then 0.92 + ((avg_games - 10) / 10) * 0.05
    else 0.97 + (min ((avg_games - 20) / 20) 1.0) * 0.02
  let home_metrics := calculate_team_metrics home_stats
  let away_metrics := calculate_team_metrics away_stats
  let net_rating_gap := |home_metrics.net_rating - away_metrics.net_rating|
  let off_rating_gap := |home_metrics.offensive_rating - away_metrics.offensive_rating|
  let def_rating_gap := |home_metrics.defensive_rating - away_metrics.defensive_rating|
  let max_gap := max net_rating_gap (max (off_rating_gap * 0.7) (def_rating_gap * 0.7))
  let talent_boost0 : ℚ :=
    if max_gap > 30 then 0.10
    else if max_gap > 20 then 0.07
    else if max_gap > 15 then 0.04
    else 0.00
  let home_wins := home_stats.wins.getD 0
  let away_wins := away_stats.wins.getD 0
  let talent_boost1 : ℚ :=
    if 2 ≤ home_games ∧ 2 ≤ away_games then
      let home_win_pct := home_wins / max 1 home_games
      let away_win_pct := away_wins / max 1 away_games
      let win_pct_gap := |home_win_pct - away_win_pct|
      if win_pct_gap > 0.6 ∧ net_rating_gap < 15 then max talent_boost0 0.06 else talent_boost0
    else talent_boost0
  let talent_boost2 : ℚ :=
    match game_info with
    | none => talent_boost1
    | some info =>
      if avg_games < 10 then
        let home_tier := conference_tiers (info.home_conference.getD "")
        let away_tier := conference_tiers (info.away_conference.getD "")
        let tier_gap := |home_tier - away_tier|
        let conference_boost0 : ℚ :=
          if 3 ≤ tier_gap then 0.12
          else if 2 ≤ tier_gap then 0.08
          else if 1 ≤ tier_gap then 0.04
          else 0.0
        let conference_boost := conference_boost0 * ((10 - avg_games) / 10)
        max talent_boost1 conference_boost
      else talent_boost1
  min 0.99 (base_weight + talent_boost2)

/-- `analyze_recent_form` (model.py:244-349).  `sqrtQ` models the square root
taken by `np.std`; `np.linspace(0.5, 1.0, n)` yields `[0.5]` for `n = 1` and
the arithmetic progression from 0.5 to 1.0 otherwise. -/
def analyze_recent_form (sqrtQ : ℚ → ℚ) (recent_games : List RecentGame) (team_id : ℤ) :
    FormMetrics :=
  match recent_games with
  | [] => { win_rate := 0.5, avg_margin := 0, scoring_trend := 0, consistency := 0.3 }
  | g0 :: rest =>
    let games := g0 :: rest
    let margins := games.map (fun g =>
      if g.home_team_id = some team_id then g.home_score.getD 0 - g.away_score.getD 0
      else g.away_score.getD 0 - g.home_score.getD 0)
    let scores := games.map (fun g =>
      if g.home_team_id = some team_id then g.home_score.getD 0 else g.away_score.getD 0)
    let n := games.length
    let win_rate := ((margins.filter (fun m => decide (0 < m))).length : ℚ) / (n : ℚ)
    let avg_margin := margins.sum / (n : ℚ)
    let weights := (List.range n).map (fun i =>
      if n = 1 then (0.5 : ℚ) else 0.5 + (i : ℚ) * (0.5 / ((n : ℚ) - 1)))
    let scoring_trend := (List.zipWith (fun w s => w * s) weights scores).sum / weights.sum
    let sample_size_factor : ℚ :=
      if n ≤ 2 then 0.3
      else if n ≤ 5 then 0.4 + ((n : ℚ) - 2) * 0.05
      else if n ≤ 10 then 0.55 + ((n : ℚ) - 5) * 0.04
      else min (0.75 + ((n : ℚ) - 10) * 0.02) 0.90
    let variance_factor : ℚ :=
      if 1 < margins.length then
        let margin_std := sqrtQ ((margins.map (fun m => (m - avg_margin) ^ 2)).sum / (n : ℚ))
        if margin_std < 8 then 0.75 - margin_std / 20
        else if margin_std < 12 then 0.6 + (12 - margin_std) / 40
        else if margin_std < 18 then 0.45 + (18 - margin_std) / 60
        else max 0.3 (0.45 - (margin_std - 18) / 100)
      else 0.4
    let quality_factor : ℚ :=
      if 3 ≤ margins.length then
        let max_margin := margins.foldl max (margins.headD 0)
        let min_margin := margins.foldl min (margins.headD 0)
        let swing := max_margin - min_margin
        if swing > 40 then max 0.3 (1 - (swing - 40) / 100) else 0.8
      else 0.5
    let consistency :=
      roundTo 3 (max 0.25 (min 0.85
        (sample_size_factor * 0.5 + variance_factor * 0.3 + quality_factor * 0.2)))
    { win_rate := win_rate, avg_margin := avg_margin,
      scoring_trend := scoring_trend, consistency := consistency }

/-- `validate_pace` (model.py:387-391): out-of-[55,85] paces fall back to 70. -/
def validate_pace (pace : ℚ) : ℚ :=
  if pace ≤ 0 ∨ pace < 55 ∨ pace > 85 then 70 else pace

/-- `validate_rating` (model.py:399-404): out-of-[60,180] ratings fall back
to 100. -/
def validate_rating (rating : ℚ) : ℚ :=
  if rating ≤ 0 ∨ rating < 60 ∨ rating > 180 then 100 else rating

/-- The early-season safety check of `predict_spread` (model.py:423-443):
extra regression when a team has games played but no recorded wins+losses,
or when very few games have been played. -/
def safety_regression_weight (home_stats away_stats : TeamStats)
    (base_regression_weight : ℚ) : ℚ :=
  let home_wins := home_stats.wins.getD 0
  let home_losses := home_stats.losses.getD 0
  let away_wins := away_stats.wins.getD 0
  let away_losses := away_stats.losses.getD 0
  let home_games := home_stats.games.getD 0
  let away_games := away_stats.games.getD 0
  let home_unreliable := 0 < home_games ∧ home_wins + home_losses = 0
  let away_unreliable := 0 < away_games ∧ away_wins + away_losses = 0
  if (home_unreliable ∨ away_unreliable) ∧ home_games + away_games < 6 then
    base_regression_weight * 0.60
  else if home_games + away_games < 4 then base_regression_weight * 0.80
  else base_regression_weight

/-- The market spread extraction of model.py:478-480:
`game_info.get('odds', {}).get('spread', {}).get('home_spread')`. -/
def market_spread_of (game_info : Option GameInfo) : Option ℚ :=
  match game_info with
  | none => none
  | some info =>
    ((info.odds.getD { spread := none, total := none }).spread.getD
      { home_spread := none, away_spread := none, home_odds := none, away_odds := none }).home_spread

/-- The market-trust blending step of `predict_spread` (model.py:474-523),
applied to the unblended model spread. -/
def market_adjust (game_info : Option GameInfo) (num_games : ℕ) (predicted_spread : ℚ) : ℚ :=
  match game_info with
  | none => predicted_spread
  | some _ =>
    if num_games < 15 then
      match market_spread_of game_info with
      | none => predicted_spread
      | some market_spread =>
        let market_fav_home := market_spread < 0
        let model_fav_home := predicted_spread > 0
        let market_mag := |market_spread|
        let model_mag := |predicted_spread|
        if (market_fav_home ↔ model_fav_home) then
          let gap := market_mag - model_mag
          if gap > 5 then
            let games_factor := max 0.3 ((15 - (num_games : ℚ)) / 15)
            let blend_factor : ℚ :=
              if market_mag ≥ 25 then 0.70 + games_factor * 0.20
              else if market_mag ≥ 20 then 0.60 + games_factor * 0.20
              else if market_mag ≥ 15 then 0.50 + games_factor * 0.15
              else 0.40 + games_factor * 0.10
            let adjustment := gap * blend_factor
            if market_fav_home then predicted_spread + adjustment
            else predicted_spread - adjustment
          else predicted_spread
        else predicted_spread
    else predicted_spread

/-- The confidence computation of `predict_spread` (model.py:528-547),
before the final `round(confidence, 3)`. -/
def spread_confidence (num_games : ℕ) (base_confidence predicted_spread : ℚ) : ℚ :=
  let confidence0 := max 0.40 base_confidence
  let confidence1 :=
    if num_games < 4 then confidence0 * 0.90
    else if num_games < 8 then confidence0 * 0.95
    else confidence0
  let confidence2 :=
    if |predicted_spread| > 30 then confidence1 * 0.85
    else if |predicted_spread| > 20 then confidence1 * 0.92
    else if |predicted_spread| > 15 then confidence1 * 0.96
    else confidence1
  min confidence2 0.85

/-- `predict_spread` (model.py:351-549).  The API calls of lines 366-371 are
externalized: the caller supplies the fetched stats and recent games. -/
def predict_spread (sqrtQ : ℚ → ℚ) (home_team_id away_team_id : ℤ)
    (home_stats away_stats : TeamStats) (home_recent away_recent : List RecentGame)
    (game_info : Option GameInfo) : ℚ × ℚ :=
  let home_metrics := calculate_team_metrics home_stats
  let away_metrics := calculate_team_metrics away_stats
  let home_form := analyze_recent_form sqrtQ home_recent home_team_id
  let away_form := analyze_recent_form sqrtQ away_recent away_team_id
  let num_games := home_recent.length + away_recent.length
  let home_pace := validate_pace home_metrics.pace
  let away_pace := validate_pace away_metrics.pace
  let game_pace := home_pace * 0.55 + away_pace * 0.45
  let home_off_rating := validate_rating home_metrics.offensive_rating
  let away_def_rating := validate_rating away_metrics.defensive_rating
  let away_off_rating := validate_rating away_metrics.offensive_rating
  let home_def_rating := validate_rating home_metrics.defensive_rating
  let regression_weight := safety_regression_weight home_stats away_stats
    (get_adaptive_regression_weight home_stats away_stats home_recent away_recent game_info)
  let league_avg : ℚ := 100.0
  let home_off_adj := home_off_rating * regression_weight + league_avg * (1 - regression_weight)
  let away_def_adj := away_def_rating * regression_weight + league_avg * (1 - regression_weight)
  let away_off_adj := away_off_rating * regression_weight + league_avg * (1 - regression_weight)
  let home_def_adj := home_def_rating * regression_weight + league_avg * (1 - regression_weight)
  let home_court_boost : ℚ := 3.5
  let home_expected_eff := home_off_adj + (away_def_adj - league_avg) + home_court_boost
  let away_expected_eff := away_off_adj + (home_def_adj - league_avg)
  let form_adjustment := max (-5) (min 5 ((home_form.avg_margin - away_form.avg_margin) * 0.10))
  let home_projected := home_expected_eff * game_pace / 100
  let away_projected := away_expected_eff * game_pace / 100
  let predicted_spread0 := (home_projected - away_projected) + form_adjustment
  let predicted_spread1 := market_adjust game_info num_games predicted_spread0
  let predicted_spread2 := max (-50) (min 50 predicted_spread1)
  let base_confidence := (home_form.consistency + away_form.consistency) / 2
  (roundTo 1 predicted_spread2, roundTo 3 (spread_confidence num_games base_confidence predicted_spread2))

/-- `s.split('T')[0].replace('Z', '')` (model.py:642), over the character
list of the start-date string. -/
def preprocess_date (s : String) : List Char :=
  (s.toList.takeWhile (fun c => c ≠ 'T')).filter (fun c => c ≠ 'Z')

/-- Gregorian leap-year test used by date validation. -/
def is_leap (y : ℕ) : Bool :=
  decide (y % 4 = 0 ∧ (¬y % 100 = 0 ∨ y % 400 = 0))

/-- Days in a month, for `datetime` day-range validation. -/
def days_in_month (y m : ℕ) : ℕ :=
  if m = 2 then (if is_leap y then 29 else 28)
  else if m = 4 ∨ m = 6 ∨ m = 9 ∨ m = 11 then 30
  else 31

/-- `datetime.fromisoformat` on the date part (model.py:642): accepts exactly
`YYYY-MM-DD` with a valid calendar date (year ≥ 1), returning
`(year, month, day)`; anything else raises, i.e. yields `none`. -/
def parse_iso_date (cs : List Char) : Option (ℕ × ℕ × ℕ) :=
  match cs with
  | [y1, y2, y3, y4, s1, m1, m2, s2, d1, d2] =>
    if y1.isDigit ∧ y2.isDigit ∧ y3.isDigit ∧ y4.isDigit ∧ s1 = '-' ∧
        m1.isDigit ∧ m2.isDigit ∧ s2 = '-' ∧ d1.isDigit ∧ d2.isDigit then
      let year := (y1.toNat - 48) * 1000 + (y2.toNat - 48) * 100 + (y3.toNat - 48) * 10 + (y4.toNat - 48)
      let month := (m1.toNat - 48) * 10 + (m2.toNat - 48)
      let day := (d1.toNat - 48) * 10 + (d2.toNat - 48)
      if 1 ≤ year ∧ 1 ≤ month ∧ month ≤ 12 ∧ 1 ≤ day ∧ day ≤ days_in_month year month then
        some (year, month, day)
      else none
    else none
  | _ => none

/-- The early-season total dampener of `predict_total` (model.py:635-655):
November totals shrink by 5%, December 1-14 totals by 3%; a missing or
unparseable date (the `except: pass`) leaves the total unchanged.  Totality
of this function is the embedding of "no exception propagates". -/
def early_season_adjust (game_info : Option GameInfo) (predicted_total : ℚ) : ℚ :=
  match game_info with
  | none => predicted_total
  | some info =>
    match info.start_date with
    | none => predicted_total
    | some sd =>
      match parse_iso_date (preprocess_date sd) with
      | none => predicted_total
      | some (_, month, day) =>
        if month = 11 then predicted_total * 0.95
        else if month = 12 ∧ day ≤ 14 then predicted_total * 0.97
        else predicted_total

/-- The confidence computation of `predict_total` (model.py:660-689), before
the final `round(confidence, 3)`. -/
def total_confidence (num_games : ℕ) (base_confidence predicted_total home_pace away_pace : ℚ) : ℚ :=
  let confidence0 := max 0.35 base_confidence
  let confidence1 :=
    if num_games < 4 then confidence0 * 0.88
    else if num_games < 8 then confidence0 * 0.94
    else confidence0
  let league_avg_total : ℚ := 142
  let total_deviation := |predicted_total - league_avg_total|
  let confidence2 :=
    if total_deviation > 30 then confidence1 * 0.80
    else if total_deviation > 20 then confidence1 * 0.88
    else if total_deviation > 15 then confidence1 * 0.94
    else confidence1
  let pace_diff := |home_pace - away_pace|
  let confidence3 := if pace_diff > 15 then confidence2 * 0.90 else confidence2
  let confidence4 := confidence3 * 0.92
  max 0.35 (min 0.75 confidence4)

/-- `predict_total` (model.py:551-691), with externalized data fetches as in
`predict_spread`. -/
def predict_total (sqrtQ : ℚ → ℚ) (home_team_id away_team_id : ℤ)
    (home_stats away_stats : TeamStats) (home_recent away_recent : List RecentGame)
    (game_info : Option GameInfo) : ℚ × ℚ :=
  let home_metrics := calculate_team_metrics home_stats
  let away_metrics := calculate_team_metrics away_stats
  let home_form := analyze_recent_form sqrtQ home_recent home_team_id
  let away_form := analyze_recent_form sqrtQ away_recent away_team_id
  let num_games := home_recent.length + away_recent.length
  let home_pace := validate_pace home_metrics.pace
  let away_pace := validate_pace away_metrics.pace
  let game_pace := home_pace * 0.55 + away_pace * 0.45
  let home_off_rating := validate_rating home_metrics.offensive_rating
  let away_def_rating := validate_rating away_metrics.defensive_rating
  let away_off_rating := validate_rating away_metrics.offensive_rating
  let home_def_rating := validate_rating home_metrics.defensive_rating
  let regression_weight :=
    get_adaptive_regression_weight home_stats away_stats home_recent away_recent game_info
  let league_avg : ℚ := 100.0
  let home_off_adj := home_off_rating * regression_weight + league_avg * (1 - regression_weight)
  let away_def_adj := away_def_rating * regression_weight + league_avg * (1 - regression_weight)
  let away_off_adj := away_off_rating * regression_weight + league_avg * (1 - regression_weight)
  let home_def_adj := home_def_rating * regression_weight + league_avg * (1 - regression_weight)
  let home_court_boost : ℚ := 3.5
  let home_expected_eff := home_off_adj + (away_def_adj - league_avg) + home_court_boost
  let away_expected_eff := away_off_adj + (home_def_adj - league_avg)
  let home_projected := home_expected_eff * game_pace / 100
  let away_projected := away_expected_eff * game_pace / 100
  let predicted_total0 := home_projected + away_projected
  let predicted_total1 := early_season_adjust game_info predicted_total0
  let predicted_total2 := max 110 (min 200 predicted_total1)
  let base_confidence := (home_form.consistency + away_form.consistency) / 2
  (roundTo 1 predicted_total2,
    roundTo 3 (total_confidence num_games base_confidence predicted_total2 home_pace away_pace))

/-! ### Concrete inputs used by witnesses and counterexamples -/

/-- An all-defaults stats dictionary (every provider field missing). -/
def emptyStats : TeamStats :=
  { points_per_game := none, opponent_points_per_game := none, offensive_rating := none,
    defensive_rating := none, pace := none, games := none, wins := none, losses := none }

/-- Stats carrying only a (valid) pace of 71 possessions per game. -/
def statsPace71 : TeamStats := { emptyStats with pace := some 71 }

/-- A trivial realization of the `np.std` square root (its value is
irrelevant to every theorem below). -/
def sqrt0 : ℚ → ℚ := fun _ => 0

/-- A bet at -110 (passes the default -125 criterion), with a stale
pre-existing score to exercise overwriting. -/
def betPass : Bet :=
  { game_id := "g1", game_description := "A @ B", bet_type := "Spread", pick := "B -3.5",
    odds := -110, predicted_prob := 0.55, confidence := 0.6, reasoning := "model edge",
    score := some 0.9 }

/-- A bet at -150 (fails the default -125 criterion). -/
def betFail : Bet :=
  { game_id := "g2", game_description := "C @ D", bet_type := "Total", pick := "Over 145.5",
    odds := -150, predicted_prob := 0.58, confidence := 0.55, reasoning := "model edge",
    score := none }

/-- A two-bet heap: address 0 passes the odds filter, address 1 fails it. -/
def heap0 : ℕ → Bet := fun n => if n = 0 then betPass else betFail

/-- Context with a November start date. -/
def giNov : GameInfo :=
  { home_conference := none, away_conference := none, odds := none,
    start_date := some "2025-11-05T19:00:00Z" }

/-- Context with an unparseable start date. -/
def giBadDate : GameInfo :=
  { home_conference := none, away_conference := none, odds := none,
    start_date := some "not-a-date" }

/-- Market spread record favoring home by 20 points. -/
def sdMinus20 : SpreadData :=
  { home_spread := some (-20), away_spread := none, home_odds := none, away_odds := none }

/-- Context whose market favors home by 20 points (`home_spread = -20`). -/
def giMarket20 : GameInfo :=
  { home_conference := none, away_conference := none,
    odds := some { spread := some sdMinus20, total := none },
    start_date := none }

/-- Odds dictionary with a market total line of 145.5 (written as the
normalized rational 291/2 so that witness proofs can evaluate it). -/
def odTotal : OddsData :=
  { spread := none,
    total := some { line := some (Rat.divInt 291 2), over_odds := none, under_odds := none } }

/-- A games dictionary with no fields set. -/
def gDict0 : GameDict := { id := none, home_team := none, away_team := none }

/-! ### Helper lemmas -/

theorem roundTo_mono (k : ℕ) {a b : ℚ} (h : a ≤ b) : roundTo k a ≤ roundTo k b := by
  unfold roundTo
  have hk : (0 : ℚ) < (10 : ℚ) ^ k := by positivity
  rw [div_le_div_iff_of_pos_right hk]
  exact_mod_cast Int.floor_le_floor (by nlinarith)

theorem validate_pace_bounds (p : ℚ) : 55 ≤ validate_pace p ∧ validate_pace p ≤ 85 := by
  unfold validate_pace
  split_ifs with h
  · norm_num
  · push_neg at h
    exact ⟨h.2.1, h.2.2⟩

theorem odds_factor_pos (odds : ℤ) :
    0 < 1 - (american_odds_to_probability odds - 0.5) * 0.2 := by
  have h1 : american_odds_to_probability odds ≤ 1 := by
    unfold american_odds_to_probability
    split_ifs with h
    · have hd : (0 : ℚ) < |(odds : ℚ)| + 100 := by positivity
      rw [div_le_one hd]
      linarith
    · have ho : (0 : ℚ) ≤ (odds : ℚ) := by exact_mod_cast not_lt.mp h
      have hd : (0 : ℚ) < (odds : ℚ) + 100 := by linarith
      rw [div_le_one hd]
      linarith
  linarith

/-! ### Claim theorems -/

/-- Claim C9: `analyze_recent_form` applied to an empty recent-games list
returns win rate 0.5, average margin 0 and consistency 0.3, for every
team id (and any realization of the standard-deviation square root). -/
theorem analyze_recent_form_empty_defaults :
    ∀ (sqrtQ : ℚ → ℚ) (team_id : ℤ),
      (analyze_recent_form sqrtQ [] team_id).win_rate = 0.5 ∧
      (analyze_recent_form sqrtQ [] team_id).avg_margin = 0 ∧
      (analyze_recent_form sqrtQ [] team_id).consistency = 0.3 :=
  fun _ _ => ⟨rfl, rfl, rfl⟩

/-- Claim C5 (amended): `calculate_bet_score` is strictly increasing in the
value rating and in the confidence at fixed odds *before* the final
`round(score, 4)`; after that rounding it is monotone non-decreasing in both
(strictness can be lost only to the 4-decimal rounding). -/
theorem calculate_bet_score_monotone :
    ∀ (odds : ℤ) (p₁ p₂ c₁ c₂ : ℚ), p₁ < p₂ → c₁ < c₂ →
      calculate_bet_score_raw p₁ odds c₁ < calculate_bet_score_raw p₂ odds c₁ ∧
      calculate_bet_score_raw p₁ odds c₁ < calculate_bet_score_raw p₁ odds c₂ ∧
      calculate_bet_score p₁ odds c₁ ≤ calculate_bet_score p₂ odds c₁ ∧
      calculate_bet_score p₁ odds c₁ ≤ calculate_bet_score p₁ odds c₂ := by
  intro odds p₁ p₂ c₁ c₂ hp hc
  have hf := odds_factor_pos odds
  have h₁ : calculate_bet_score_raw p₁ odds c₁ < calculate_bet_score_raw p₂ odds c₁ := by
    unfold calculate_bet_score_raw
    apply mul_lt_mul_of_pos_right (by linarith) hf
  have h₂ : calculate_bet_score_raw p₁ odds c₁ < calculate_bet_score_raw p₁ odds c₂ := by
    unfold calculate_bet_score_raw
    apply mul_lt_mul_of_pos_right (by linarith) hf
  exact ⟨h₁, h₂, roundTo_mono 4 h₁.le, roundTo_mono 4 h₂.le⟩

/-- Claim C5 witness: a concrete instance of the monotonicity theorem. -/
theorem calculate_bet_score_monotone_witness :
    calculate_bet_score_raw 0.5 (-110) 0.6 < calculate_bet_score_raw 0.6 (-110) 0.6 ∧
    calculate_bet_score 0.5 (-110) 0.6 ≤ calculate_bet_score 0.6 (-110) 0.6 := by
  have h := calculate_bet_score_monotone (-110) 0.5 0.6 0.6 0.7 (by norm_num) (by norm_num)
  exact ⟨h.1, h.2.2.1⟩

/-- Claim C5 counterexample: strict monotonicity in the value rating fails
for the returned (4-decimal-rounded) score: raising `predicted_prob` from
0.5 to 0.5 + 10⁻⁶ at odds +100 and confidence 0.5 leaves the score at 0.5. -/
theorem calculate_bet_score_strictness_fails :
    (0.5 : ℚ) < 0.5 + 1 / 1000000 ∧
    calculate_bet_score 0.5 100 0.5 = calculate_bet_score (0.5 + 1 / 1000000) 100 0.5 := by
  constructor
  · norm_num
  · unfold calculate_bet_score calculate_bet_score_raw american_odds_to_probability roundTo
    norm_num

/-- Claim C3: with a market home spread of -20 and an unblended model spread
of +5 (home favored by 5) and fewer than 15 combined recent games, the
market-blending step of `predict_spread` adds `gap × blend_factor` with
`gap = 15` and `blend_factor = 0.60 + games_factor × 0.20 ∈ [0.60, 0.80]`,
so the blended spread lies strictly between the unblended 5 and the market
magnitude 20. -/
theorem market_adjust_blend_toward_market :
    ∀ (num_games : ℕ) (gi : GameInfo), num_games < 15 →
      market_spread_of (some gi) = some (-20) →
      market_adjust (some gi) num_games 5 =
        5 + 15 * (0.60 + max 0.3 ((15 - (num_games : ℚ)) / 15) * 0.20) ∧
      0.60 ≤ 0.60 + max 0.3 ((15 - (num_games : ℚ)) / 15) * 0.20 ∧
      0.60 + max 0.3 ((15 - (num_games : ℚ)) / 15) * 0.20 ≤ 0.80 ∧
      5 < market_adjust (some gi) num_games 5 ∧
      market_adjust (some gi) num_games 5 < 20 := by
  intro n gi hn hms
  have hgf0 : (0.3 : ℚ) ≤ max 0.3 ((15 - (n : ℚ)) / 15) := le_max_left _ _
  have hgf1 : max (0.3 : ℚ) ((15 - (n : ℚ)) / 15) ≤ 1 := by
    apply max_le (by norm_num)
    rw [div_le_one (by norm_num)]
    have : (0 : ℚ) ≤ (n : ℚ) := Nat.cast_nonneg n
    linarith
  have heq : market_adjust (some gi) n 5 =
      5 + 15 * (0.60 + max 0.3 ((15 - (n : ℚ)) / 15) * 0.20) := by
    unfold market_adjust
    rw [hms]
    norm_num [hn]
  refine ⟨heq, by linarith, by linarith, ?_, ?_⟩
  · rw [heq]; nlinarith
  · rw [heq]; nlinarith

/-- Claim C3 witness: the blending step at zero recent games. -/
theorem market_adjust_blend_toward_market_witness :
    market_adjust (some giMarket20) 0 5 = 17 ∧
    5 < market_adjust (some giMarket20) 0 5 ∧ market_adjust (some giMarket20) 0 5 < 20 := by
  have h := market_adjust_blend_toward_market 0 giMarket20 (by norm_num) (by decide)
  refine ⟨?_, h.2.2.2.1, h.2.2.2.2⟩
  rw [h.1]
  norm_num

/-- Claim C7: the early-season dampener of `predict_total` multiplies the
projected total by 0.95 for a November start date and by 0.97 for December
1-14; any other parsed date, an absent start date, or an unparseable start
date leaves the total unchanged (the embedding of this step is a total
function: no exception propagates). -/
theorem early_season_adjust_spec :
    (∀ t : ℚ, early_season_adjust none t = t) ∧
    (∀ (info : GameInfo) (t : ℚ), info.start_date = none →
      early_season_adjust (some info) t = t) ∧
    (∀ (info : GameInfo) (s : String) (t : ℚ) (y m d : ℕ),
      info.start_date = some s → parse_iso_date (preprocess_date s) = some (y, m, d) →
        (m = 11 → early_season_adjust (some info) t = t * 0.95) ∧
        (m = 12 → d ≤ 14 → early_season_adjust (some info) t = t * 0.97) ∧
        (m ≠ 11 → ¬(m = 12 ∧ d ≤ 14) → early_season_adjust (some info) t = t)) ∧
    (∀ (info : GameInfo) (s : String) (t : ℚ),
      info.start_date = some s → parse_iso_date (preprocess_date s) = none →
        early_season_adjust (some info) t = t) := by
  refine ⟨fun _ => rfl, ?_, ?_, ?_⟩
  · intro info t h
    simp [early_season_adjust, h]
  · intro info s t y m d hs hp
    refine ⟨?_, ?_, ?_⟩
    · intro hm
      simp [early_season_adjust, hs, hp, hm]
    · intro hm hd
      subst hm
      simp [early_season_adjust, hs, hp, hd]
    · intro hm hmd
      simp [early_season_adjust, hs, hp, hm, hmd]
  · intro info s t hs hp
    simp [early_season_adjust, hs, hp]

/-- Claim C7 witness: a November date shrinks the total by 5%; an
unparseable date leaves it unchanged. -/
theorem early_season_adjust_spec_witness :
    early_season_adjust (some giNov) 150 = 150 * 0.95 ∧
    early_season_adjust (some giBadDate) 150 = 150 := by
  constructor
  · exact (early_season_adjust_spec.2.2.1 giNov "2025-11-05T19:00:00Z" 150 2025 11 5
      rfl (by decide)).1 rfl
  · exact early_season_adjust_spec.2.2.2 giBadDate "not-a-date" 150 rfl (by decide)

theorem stp_bounds :
    ∀ e : ℚ, 0.50 ≤ _spread_to_probability e ∧ _spread_to_probability e ≤ 0.70 := by
  intro e
  simp only [_spread_to_probability]
  split_ifs
  · constructor <;> norm_num
  all_goals exact ⟨le_max_left _ _, max_le (by norm_num) (min_le_left _ _)⟩

theorem stp_pos_formula (e : ℚ) (he : 0.5 ≤ e) :
    _spread_to_probability e = max 0.50 (min 0.70
      (0.5 + min e 5 * 0.015 + min (max (e - 5) 0) 5 * 0.012 +
        min (max (e - 10) 0) 10 * 0.006 + min (max (e - 20) 0 * 0.001) 0.005)) := by
  have h0 : (0 : ℚ) < e := by linarith
  have habs : |e| = e := abs_of_nonneg (by linarith)
  simp only [_spread_to_probability, habs]
  rw [if_neg (by linarith : ¬ e < 0.5)]
  rcases le_or_lt e 5 with h5 | h5
  · rw [if_pos h5, min_eq_left h5, max_eq_right (by linarith : e - 5 ≤ (0 : ℚ)),
      max_eq_right (by linarith : e - 10 ≤ (0 : ℚ)),
      max_eq_right (by linarith : e - 20 ≤ (0 : ℚ))]
    norm_num
  · rw [if_neg (not_le.mpr h5)]
    rcases le_or_lt e 10 with h10 | h10
    · rw [if_pos h10, if_pos h0, min_eq_right h5.le,
        max_eq_left (by linarith : (0 : ℚ) ≤ e - 5), min_eq_left (by linarith : e - 5 ≤ (5 : ℚ)),
        max_eq_right (by linarith : e - 10 ≤ (0 : ℚ)),
        max_eq_right (by linarith : e - 20 ≤ (0 : ℚ))]
      norm_num
    · rw [if_neg (not_le.mpr h10)]
      rcases le_or_lt e 20 with h20 | h20
      · rw [if_pos h20, if_pos h0, min_eq_right h5.le,
          max_eq_left (by linarith : (0 : ℚ) ≤ e - 5),
          min_eq_right (by linarith : (5 : ℚ) ≤ e - 5),
          max_eq_left (by linarith : (0 : ℚ) ≤ e - 10),
          min_eq_left (by linarith : e - 10 ≤ (10 : ℚ)),
          max_eq_right (by linarith : e - 20 ≤ (0 : ℚ))]
        norm_num
      · rw [if_neg (not_le.mpr h20), if_pos h0, min_eq_right h5.le,
          max_eq_left (by linarith : (0 : ℚ) ≤ e - 5),
          min_eq_right (by linarith : (5 : ℚ) ≤ e - 5),
          max_eq_left (by linarith : (0 : ℚ) ≤ e - 10),
          min_eq_right (by linarith : (10 : ℚ) ≤ e - 10),
          max_eq_left (by linarith : (0 : ℚ) ≤ e - 20)]
        norm_num

theorem stp_pos_mono :
    ∀ e₁ e₂ : ℚ, 0 < e₁ → e₁ ≤ e₂ →
      _spread_to_probability e₁ ≤ _spread_to_probability e₂ := by
  intro e₁ e₂ h1 h12
  rcases lt_or_le e₁ 0.5 with hlt | hge
  · have he : _spread_to_probability e₁ = 0.50 := by
      simp only [_spread_to_probability, abs_of_nonneg h1.le]
      rw [if_pos hlt]
    rw [he]
    exact (stp_bounds e₂).1
  · rw [stp_pos_formula e₁ hge, stp_pos_formula e₂ (le_trans hge h12)]
    refine max_le_max le_rfl (min_le_min le_rfl ?_)
    gcongr

theorem stp_neg_small : ∀ e : ℚ, -5 ≤ e → e < 0 → _spread_to_probability e = 0.50 := by
  intro e h5 h0
  have habs : |e| = -e := abs_of_neg h0
  simp only [_spread_to_probability, habs]
  by_cases hc : -e < 0.5
  · rw [if_pos hc]
  · rw [if_neg hc, if_pos (by linarith : -e ≤ (5 : ℚ)),
      min_eq_right (by linarith : 0.50 + e * 0.015 ≤ (0.70 : ℚ)),
      max_eq_left (by linarith : 0.50 + e * 0.015 ≤ (0.50 : ℚ))]

/-- Claim C2 (amended): `_spread_to_probability` always returns a rating in
[0.50, 0.70], is monotone non-decreasing in the edge over all positive edges,
and returns exactly 0.50 at edge 0.3; but for negative edges it is *not*
monotone non-increasing — it equals 0.50 on [-5, 0) and jumps above 0.50 only
past each band boundary (see the counterexample). -/
theorem spread_to_probability_spec :
    (∀ e : ℚ, 0.50 ≤ _spread_to_probability e ∧ _spread_to_probability e ≤ 0.70) ∧
    (∀ e₁ e₂ : ℚ, 0 < e₁ → e₁ ≤ e₂ →
      _spread_to_probability e₁ ≤ _spread_to_probability e₂) ∧
    _spread_to_probability 0.3 = 0.50 ∧
    (∀ e : ℚ, -5 ≤ e → e < 0 → _spread_to_probability e = 0.50) :=
  ⟨stp_bounds, stp_pos_mono,
    by simp only [_spread_to_probability]; rw [if_pos (show |(0.3 : ℚ)| < 0.5 by rw [abs_of_nonneg (by norm_num : (0 : ℚ) ≤ 0.3)]; norm_num)],
    stp_neg_small⟩

/-- Claim C2 witness: concrete instances of the bounds, the positive-edge
monotonicity and the negative-edge plateau. -/
theorem spread_to_probability_spec_witness :
    (0.50 ≤ _spread_to_probability 2 ∧ _spread_to_probability 2 ≤ 0.70) ∧
    _spread_to_probability 1 ≤ _spread_to_probability 3 ∧
    _spread_to_probability (-3) = 0.50 :=
  ⟨spread_to_probability_spec.1 2,
   spread_to_probability_spec.2.1 1 3 (by norm_num) (by norm_num),
   spread_to_probability_spec.2.2.2 (-3) (by norm_num) (by norm_num)⟩

/-- Claim C2 counterexample: monotone non-increase on negative edges fails:
-10 < -7 yet the rating at -10 (0.515) is *smaller* than at -7 (0.551),
because each band's negative branch subtracts from the next band's positive
base. -/
theorem spread_to_probability_neg_mono_fails :
    (-10 : ℚ) < -7 ∧ _spread_to_probability (-10) < _spread_to_probability (-7) := by
  refine ⟨by norm_num, ?_⟩
  norm_num [_spread_to_probability]

/-- Claim C8: `create_bet_from_prediction` for a total emits exactly one bet
whose pick string is `"Over {line}"` or `"Under {line}"`, and a predicted
total exactly equal to the market line picks Under (the Over branch needs
the strict inequality `predicted_total > total_line`). -/
theorem create_bet_total_tie_under :
    ∀ (game : GameDict) (prediction confidence : ℚ) (odds_data : OddsData),
      ((create_bet_from_prediction game "total" prediction confidence odds_data).map Bet.pick =
          ["Over " ++ pyStr ((odds_data.total.getD ⟨none, none, none⟩).line.getD 140)] ∨
        (create_bet_from_prediction game "total" prediction confidence odds_data).map Bet.pick =
          ["Under " ++ pyStr ((odds_data.total.getD ⟨none, none, none⟩).line.getD 140)]) ∧
      (prediction = (odds_data.total.getD ⟨none, none, none⟩).line.getD 140 →
        (create_bet_from_prediction game "total" prediction confidence odds_data).map Bet.pick =
          ["Under " ++ pyStr ((odds_data.total.getD ⟨none, none, none⟩).line.getD 140)]) := by
  intro game p c od
  constructor
  · by_cases h : p > (od.total.getD ⟨none, none, none⟩).line.getD 140
    · left
      simp [create_bet_from_prediction, h]
    · right
      simp [create_bet_from_prediction, h]
  · intro he
    have h : ¬ p > (od.total.getD ⟨none, none, none⟩).line.getD 140 := by
      rw [he]
      exact lt_irrefl _
    simp [create_bet_from_prediction, h]

theorem market_adjust_of_no_market (gi : Option GameInfo) (n : ℕ) (x : ℚ)
    (hms : market_spread_of gi = none) : market_adjust gi n x = x := by
  cases gi with
  | none => rfl
  | some info =>
    unfold market_adjust
    rw [hms]
    split_ifs <;> rfl

theorem spread_confidence_low (n : ℕ) (b s : ℚ) : 0.306 ≤ spread_confidence n b s := by
  unfold spread_confidence
  have h0 : (0.40 : ℚ) ≤ max 0.40 b := le_max_left _ _
  refine le_min ?_ (by norm_num)
  split_ifs <;> linarith

theorem spread_confidence_high (n : ℕ) (b s : ℚ) : spread_confidence n b s ≤ 0.85 := by
  unfold spread_confidence
  exact min_le_right _ _

theorem total_confidence_low (n : ℕ) (b t hp ap : ℚ) : 0.35 ≤ total_confidence n b t hp ap := by
  unfold total_confidence
  exact le_max_left _ _

theorem total_confidence_high (n : ℕ) (b t hp ap : ℚ) : total_confidence n b t hp ap ≤ 0.75 := by
  unfold total_confidence
  exact max_le (by norm_num) (min_le_left _ _)

theorem spread_confidence_eval_small (n : ℕ) (b s : ℚ) (hn : n < 4) (hb : b ≤ 0.40)
    (hs : |s| ≤ 15) : spread_confidence n b s = 0.36 := by
  simp only [spread_confidence]
  rw [max_eq_left hb, if_pos hn,
    if_neg (by linarith : ¬ |s| > 30), if_neg (by linarith : ¬ |s| > 20),
    if_neg (by linarith : ¬ |s| > 15)]
  norm_num

theorem roundTo3_point306 : roundTo 3 (0.306 : ℚ) = 0.306 := by unfold roundTo; norm_num

theorem roundTo3_point85 : roundTo 3 (0.85 : ℚ) = 0.85 := by unfold roundTo; norm_num

theorem roundTo3_point35 : roundTo 3 (0.35 : ℚ) = 0.35 := by unfold roundTo; norm_num

theorem roundTo3_point75 : roundTo 3 (0.75 : ℚ) = 0.75 := by unfold roundTo; norm_num

/-- Claim C1 (amended): for every input, the confidence returned by
`predict_total` lies in [0.35, 0.75] as documented, but the `predict_spread`
confidence is only guaranteed to lie in [0.306, 0.85]: the 0.40 floor is
applied *before* the small-sample (×0.90) and extreme-spread (×0.85)
penalties, so the returned value can drop as low as 0.40 × 0.90 × 0.85. -/
theorem prediction_confidence_bounds :
    ∀ (sqrtQ : ℚ → ℚ) (hid aid : ℤ) (hs as_ : TeamStats)
      (hr ar : List RecentGame) (gi : Option GameInfo),
      0.306 ≤ (predict_spread sqrtQ hid aid hs as_ hr ar gi).2 ∧
      (predict_spread sqrtQ hid aid hs as_ hr ar gi).2 ≤ 0.85 ∧
      0.35 ≤ (predict_total sqrtQ hid aid hs as_ hr ar gi).2 ∧
      (predict_total sqrtQ hid aid hs as_ hr ar gi).2 ≤ 0.75 := by
  intro sq hid aid hs as_ hr ar gi
  refine ⟨?_, ?_, ?_, ?_⟩
  · show 0.306 ≤ roundTo 3 (spread_confidence _ _ _)
    exact roundTo3_point306 ▸ roundTo_mono 3 (spread_confidence_low _ _ _)
  · show roundTo 3 (spread_confidence _ _ _) ≤ 0.85
    exact roundTo3_point85 ▸ roundTo_mono 3 (spread_confidence_high _ _ _)
  · show 0.35 ≤ roundTo 3 (total_confidence _ _ _ _ _)
    exact roundTo3_point35 ▸ roundTo_mono 3 (total_confidence_low _ _ _ _ _)
  · show roundTo 3 (total_confidence _ _ _ _ _) ≤ 0.75
    exact roundTo3_point75 ▸ roundTo_mono 3 (total_confidence_high _ _ _ _ _)

/-- Claim C1 counterexample: with every stats field missing and empty
recent-game lists (a valid all-default input), `predict_spread` returns
confidence 0.36, outside the claimed [0.40, 0.85]: the floor is applied
before the small-sample penalty. -/
theorem predict_spread_confidence_below_floor :
    (predict_spread sqrt0 1 2 emptyStats emptyStats [] [] none).2 = 0.36 ∧
    ¬ (0.40 : ℚ) ≤ (predict_spread sqrt0 1 2 emptyStats emptyStats [] [] none).2 := by
  have h : (predict_spread sqrt0 1 2 emptyStats emptyStats [] [] none).2 = 0.36 := by
    norm_num [predict_spread, emptyStats, sqrt0, calculate_team_metrics, analyze_recent_form,
      get_adaptive_regression_weight, safety_regression_weight, conference_tiers,
      validate_pace, validate_rating, market_adjust, spread_confidence]
    rw [show |(49 : ℚ) / 20| = 49 / 20 by norm_num]
    norm_num [roundTo]
  exact ⟨h, by rw [h]; norm_num⟩

/-- Claim C4 (amended): for two teams with identical stats, empty recent-game
lists and a context carrying no market home spread, `predict_spread` returns
the home-court boost translated through pace — `3.5 × gamePace / 100` — up to
the final one-decimal rounding, and confidence `0.36 = 0.40 × 0.90` (the
default floor times the small-sample penalty). -/
theorem predict_spread_symmetric_homecourt :
    ∀ (sqrtQ : ℚ → ℚ) (hid aid : ℤ) (s : TeamStats) (gi : Option GameInfo),
      market_spread_of gi = none →
      predict_spread sqrtQ hid aid s s [] [] gi =
        (roundTo 1 (3.5 * validate_pace (calculate_team_metrics s).pace / 100), 0.36) := by
  intro sq hid aid s gi hms
  obtain ⟨hp1, hp2⟩ := validate_pace_bounds (calculate_team_metrics s).pace
  simp only [predict_spread, List.length_nil, Nat.add_zero, analyze_recent_form,
    market_adjust_of_no_market gi _ _ hms]
  set p := validate_pace (calculate_team_metrics s).pace with hp
  set w := safety_regression_weight s s
    (get_adaptive_regression_weight s s [] [] gi) with hw
  set O := validate_rating (calculate_team_metrics s).offensive_rating with hO
  set D := validate_rating (calculate_team_metrics s).defensive_rating with hD
  have hform : max (-5 : ℚ) (min 5 (((0 : ℚ) - 0) * 0.10)) = 0 := by norm_num
  have hE : (O * w + 100.0 * (1 - w) + (D * w + 100.0 * (1 - w) - 100.0) + 3.5) *
        (p * 0.55 + p * 0.45) / 100 -
        (O * w + 100.0 * (1 - w) + (D * w + 100.0 * (1 - w) - 100.0)) *
        (p * 0.55 + p * 0.45) / 100 + 0 = 3.5 * p / 100 := by ring
  rw [hform, hE]
  have hle : 3.5 * p / 100 ≤ 50 := by nlinarith
  have hge : (-50 : ℚ) ≤ 3.5 * p / 100 := by nlinarith
  rw [min_eq_right hle, max_eq_right hge]
  have habs : |3.5 * p / 100| = 3.5 * p / 100 := abs_of_nonneg (by nlinarith)
  rw [spread_confidence_eval_small 0 ((0.3 + 0.3) / 2) (3.5 * p / 100) (by norm_num)
    (by norm_num) (by rw [habs]; nlinarith)]
  norm_num [roundTo]

/-- Claim C4 witness: identical stats with pace 71, no context. -/
theorem predict_spread_symmetric_homecourt_witness :
    market_spread_of none = none ∧
    predict_spread sqrt0 1 2 statsPace71 statsPace71 [] [] none =
      (roundTo 1 (3.5 * validate_pace (calculate_team_metrics statsPace71).pace / 100), 0.36) :=
  ⟨rfl, predict_spread_symmetric_homecourt sqrt0 1 2 statsPace71 none rfl⟩

/-- Claim C4 counterexample: with identical stats of pace 71 the game pace is
71 and the claimed exact value 3.5 × 71 / 100 = 2.485 is *not* returned: the
final rounding yields 2.5.  The claim holds only up to that rounding. -/
theorem predict_spread_symmetric_rounding_gap :
    (predict_spread sqrt0 1 2 statsPace71 statsPace71 [] [] none).1 = 2.5 ∧
    (predict_spread sqrt0 1 2 statsPace71 statsPace71 [] [] none).1 ≠ 3.5 * 71 / 100 := by
  have h : (predict_spread sqrt0 1 2 statsPace71 statsPace71 [] [] none).1 = 2.5 := by
    norm_num [predict_spread, statsPace71, emptyStats, sqrt0, calculate_team_metrics,
      analyze_recent_form, get_adaptive_regression_weight, safety_regression_weight,
      conference_tiers, validate_pace, validate_rating, market_adjust, roundTo]
  exact ⟨h, by rw [h]; norm_num⟩

/-- Claim C8 witness: a prediction of 145.5 against a market line of 145.5
yields the pick "Under 145.5". -/
theorem create_bet_total_tie_under_witness :
    (create_bet_from_prediction gDict0 "total" (Rat.divInt 291 2) 0.6 odTotal).map Bet.pick =
      ["Under 145.5"] := by
  have h := (create_bet_total_tie_under gDict0 (Rat.divInt 291 2) 0.6 odTotal).2 rfl
  rw [h]
  rfl

theorem scoreFold_apply (l : List ℕ) (h : ℕ → Bet) (a : ℕ) :
    (l.foldl (fun hh x => Function.update hh x (apply_score (hh x))) h) a =
      if a ∈ l then apply_score (h a) else h a := by
  induction l generalizing h with
  | nil => simp
  | cons b t ih =>
    simp only [List.foldl_cons]
    rw [ih]
    by_cases hab : a = b
    · subst hab
      rw [if_pos (List.mem_cons_self a t), Function.update_same]
      split_ifs <;> rfl
    · rw [Function.update_noteq hab]
      simp [List.mem_cons, hab]

/-- The heap after `select_best_bets`: exactly the odds-eligible addresses
get their score assigned; everything else is untouched. -/
theorem select_best_bets_heap (max_odds : ℤ) (h : ℕ → Bet) (all_bets : List ℕ) (a : ℕ) :
    (select_best_bets max_odds h all_bets).1 a =
      if a ∈ all_bets.filter (fun x => meets_odds_criteria max_odds (h x).odds) then
        apply_score (h a)
      else h a :=
  scoreFold_apply _ h a

/-- Claim C10: `select_best_bets` mutates its input in place: every input bet
passing `meets_odds_criteria` gets its `score` key assigned (overwriting any
pre-existing value) and no other field changed, every bet failing the filter
is left completely unmodified, and bets outside the input list are untouched. -/
theorem select_best_bets_frame_effect :
    ∀ (max_odds : ℤ) (h : ℕ → Bet) (all_bets : List ℕ) (a : ℕ),
      (a ∈ all_bets → meets_odds_criteria max_odds (h a).odds = true →
        (select_best_bets max_odds h all_bets).1 a =
          { h a with score := some (calculate_bet_score (h a).predicted_prob
              (h a).odds (h a).confidence) }) ∧
      (meets_odds_criteria max_odds (h a).odds = false →
        (select_best_bets max_odds h all_bets).1 a = h a) ∧
      (a ∉ all_bets → (select_best_bets max_odds h all_bets).1 a = h a) := by
  intro mo h bets a
  have hfold := select_best_bets_heap mo h bets a
  refine ⟨?_, ?_, ?_⟩
  · intro hmem hpass
    rw [hfold, if_pos (List.mem_filter.mpr ⟨hmem, hpass⟩)]
    rfl
  · intro hfail
    rw [hfold, if_neg]
    intro hc
    have hp := (List.mem_filter.mp hc).2
    rw [hfail] at hp
    exact Bool.false_ne_true hp
  · intro hnot
    rw [hfold, if_neg]
    intro hc
    exact hnot (List.mem_filter.mp hc).1

/-- Claim C10 witness: on the two-address heap, the passing bet at address 0
gets its stale score overwritten and the failing bet at address 1 is
untouched. -/
theorem select_best_bets_frame_effect_witness :
    (select_best_bets (-125) heap0 [0, 1]).1 0 =
      { heap0 0 with score := some (calculate_bet_score (heap0 0).predicted_prob
          (heap0 0).odds (heap0 0).confidence) } ∧
    (select_best_bets (-125) heap0 [0, 1]).1 1 = heap0 1 := by
  refine ⟨(select_best_bets_frame_effect (-125) heap0 [0, 1] 0).1 (by simp) rfl,
    (select_best_bets_frame_effect (-125) heap0 [0, 1] 1).2.1 rfl⟩

theorem filter_orderedInsert (h : ℕ → Bet) (s : ℚ) (a : ℕ) (l : List ℕ) :
    (List.orderedInsert (bet_ge h) a l).filter (fun x => decide (score_key h x = s)) =
      if score_key h a = s then a :: l.filter (fun x => decide (score_key h x = s))
      else l.filter (fun x => decide (score_key h x = s)) := by
  induction l with
  | nil =>
    simp only [List.orderedInsert]
    by_cases has : score_key h a = s <;> simp [List.filter_cons, has]
  | cons b t ih =>
    simp only [List.orderedInsert]
    by_cases hr : bet_ge h a b
    · rw [if_pos hr]
      by_cases has : score_key h a = s <;> simp [List.filter_cons, has]
    · rw [if_neg hr]
      have hab : score_key h a < score_key h b := not_le.mp hr
      by_cases has : score_key h a = s
      · have hbs : ¬ score_key h b = s := by
          intro hbe
          rw [has] at hab
          rw [hbe] at hab
          exact lt_irrefl _ hab
        simp [List.filter_cons, has, hbs, ih]
      · simp [List.filter_cons, has, ih]

theorem filter_insertionSort (h : ℕ → Bet) (s : ℚ) (l : List ℕ) :
    (List.insertionSort (bet_ge h) l).filter (fun x => decide (score_key h x = s)) =
      l.filter (fun x => decide (score_key h x = s)) := by
  induction l with
  | nil => rfl
  | cons a t ih =>
    simp only [List.insertionSort]
    rw [filter_orderedInsert]
    by_cases has : score_key h a = s <;> simp [List.filter_cons, has, ih]

/-- Claim C6: `select_best_bets` returns at most 5 bets, every returned bet
satisfies the odds criterion, the returned bets are sorted descending by
their assigned score, and the result is the 5-prefix of the stable
descending sort of the eligible bets: a permutation of them that is sorted
and, score class by score class, preserves the input order (Python's
`sorted` is stable, embedded as insertion sort).  Determinism is immediate:
the embedding is a function of its inputs. -/
theorem select_best_bets_spec :
    ∀ (max_odds : ℤ) (h : ℕ → Bet) (all_bets : List ℕ),
      ((select_best_bets max_odds h all_bets).2).length ≤ 5 ∧
      (∀ a ∈ (select_best_bets max_odds h all_bets).2,
        meets_odds_criteria max_odds (((select_best_bets max_odds h all_bets).1) a).odds = true) ∧
      ((select_best_bets max_odds h all_bets).2).Pairwise
        (bet_ge ((select_best_bets max_odds h all_bets).1)) ∧
      ∃ full : List ℕ,
        (select_best_bets max_odds h all_bets).2 = full.take 5 ∧
        full.Perm (all_bets.filter (fun a => meets_odds_criteria max_odds (h a).odds)) ∧
        full.Pairwise (bet_ge ((select_best_bets max_odds h all_bets).1)) ∧
        (∀ s : ℚ,
          full.filter (fun a =>
            decide (score_key ((select_best_bets max_odds h all_bets).1) a = s)) =
          (all_bets.filter (fun a => meets_odds_criteria max_odds (h a).odds)).filter
            (fun a =>
              decide (score_key ((select_best_bets max_odds h all_bets).1) a = s))) := by
  intro mo h bets
  have hout : (select_best_bets mo h bets).2 =
      (List.insertionSort (bet_ge ((select_best_bets mo h bets).1))
        (bets.filter (fun a => meets_odds_criteria mo (h a).odds))).take 5 := rfl
  refine ⟨?_, ?_, ?_, ?_⟩
  · rw [hout]
    exact List.length_take_le _ _
  · intro a ha
    rw [hout] at ha
    have ha2 := (List.perm_insertionSort _ _).mem_iff.mp (List.take_subset _ _ ha)
    have hp := (List.mem_filter.mp ha2).2
    have hpres : (((select_best_bets mo h bets).1) a).odds = (h a).odds := by
      rw [select_best_bets_heap]
      split_ifs
      rfl
    rw [hpres]
    exact hp
  · rw [hout]
    exact (List.sorted_insertionSort _ _).sublist (List.take_sublist _ _)
  · exact ⟨List.insertionSort (bet_ge ((select_best_bets mo h bets).1))
        (bets.filter (fun a => meets_odds_criteria mo (h a).odds)),
      rfl, List.perm_insertionSort _ _, List.sorted_insertionSort _ _,
      fun s => filter_insertionSort _ s _⟩

/-- Claim C6 witness: a concrete instance in which the returned list is `[0]`
and the returned bet satisfies the odds criterion. -/
theorem select_best_bets_spec_witness :
    meets_odds_criteria (-125) (((select_best_bets (-125) heap0 [0, 1]).1 0).odds) = true := by
  have h2 : (select_best_bets (-125) heap0 [0, 1]).2 = [0] := rfl
  exact (select_best_bets_spec (-125) heap0 [0, 1]).2.1 0
    (by rw [h2]; exact List.mem_singleton_self 0)

end NCAABB
